import Mathlib

/-
Verification of the MQTT dispatch core of iot-platform-go.

The embedding follows internal/mqtt/client.go (topic matching, the handler
registry, Connect's option building, Subscribe, Unsubscribe, Publish,
Disconnect), internal/config/config.go (MQTTConfig), and the message handlers
handleDeviceData / handleDeviceStatus of cmd/server/main.go.  The paho
transport is abstracted by its observable answers: the connection state the
client reads through IsConnected(), and the token result of a transport call.
-/

namespace IotPlatform

/-- Model of Go `strings.Split(s, "/")` on the character list of `s`:
splits on every `'/'`, keeping empty segments, and yields `[[]]` for the
empty string (Go returns `[""]`). -/
def splitSlash : List Char → List (List Char)
  | [] => [[]]
  | c :: rest =>
    if c = '/' then [] :: splitSlash rest
    else
      match splitSlash rest with
      | [] => [[c]]
      | s :: ss => (c :: s) :: ss

/-- Segments of a string separated by `/`, as Go `strings.Split(s, "/")`
produces them in `topicMatches`. -/
def segments (s : String) : List String :=
  (splitSlash s.toList).map (fun l => String.mk l)

/-- Per-segment loop of `topicMatches` (client.go, both branches): position
`i` of the pattern must be `+` or equal to position `i` of the topic; a
pattern position beyond the end of the topic fails (the `i >= len(topicParts)`
check of the `#` branch). -/
def matchParts : List String → List String → Bool
  | [], _ => true
  | _ :: _, [] => false
  | p :: ps, t :: ts => if p = "+" ∨ p = t then matchParts ps ts else false

/-- Embedding of `Client.topicMatches` (internal/mqtt/client.go lines
176-216): split pattern and topic on `/`; if the pattern's last segment is
`#`, drop it and require the topic to have at least as many segments as the
remaining pattern, matching the prefix positionally; otherwise require equal
segment counts and a positional match, `+` matching any one segment. -/
def topicMatches (pattern topic : String) : Bool :=
  if 0 < (segments pattern).length ∧ (segments pattern).getLastD "" = "#" then
    if ((segments pattern).dropLast).length ≤ (segments topic).length then
      matchParts ((segments pattern).dropLast) (segments topic)
    else false
  else
    if (segments pattern).length = (segments topic).length then
      matchParts (segments pattern) (segments topic)
    else false

/-- Handler registry `c.handlers : map[string]MessageHandler`, modelled as an
association list over an abstract handler type `α`: `List.lookup` takes the
first binding for a key and `registryStore` prepends, so the newest binding
for a pattern shadows older ones (last-write-wins, as for a Go map write).
The list order stands in for the map's arbitrary iteration order. -/
def Registry (α : Type) : Type := List (String × α)

/-- Embedding of `c.handlers[topic] = handler` (client.go line 102, inside
Subscribe). -/
def registryStore {α : Type} (r : Registry α) (pattern : String) (handler : α) :
    Registry α :=
  (pattern, handler) :: r

/-- Embedding of `delete(c.handlers, topic)` (client.go, inside Unsubscribe). -/
def registryDelete {α : Type} (r : Registry α) (pattern : String) : Registry α :=
  r.filter (fun e => e.1 ≠ pattern)

/-- Embedding of the message-delivery callback registered by Subscribe
(client.go lines 105-119): first an exact map lookup of the concrete topic,
then a scan of all registered patterns with `topicMatches`; `none` means the
default (log-only) handler runs. -/
def resolveHandler {α : Type} (r : Registry α) (topic : String) : Option α :=
  match r.lookup topic with
  | some handler => some handler
  | none => (r.find? (fun e => topicMatches e.1 topic)).map (fun e => e.2)

/-- Embedding of `MQTTConfig` from internal/config/config.go. -/
structure MQTTConfig where
  broker : String
  clientID : String
  username : String
  password : String
  keepAlive : Int
  connectTimeout : Int
  qos : Nat
  cleanSession : Bool
  autoReconnect : Bool
deriving DecidableEq

/-- Fields of the paho `ClientOptions` that `Client.Connect` sets
(client.go lines 40-62), with durations recorded in the units the source
passes (seconds resp. minutes). -/
structure ClientOptions where
  brokers : List String
  clientID : String
  keepAliveSeconds : Int
  connectTimeoutSeconds : Int
  cleanSession : Bool
  autoReconnect : Bool
  maxReconnectIntervalMinutes : Int
  connectRetry : Bool
  connectRetryIntervalSeconds : Int
  orderMatters : Bool
  resumeSubs : Bool
  username : String
  password : String
deriving DecidableEq

/-- Option building of `Client.Connect` (client.go lines 40-62).  The source
sets `opts.SetCleanSession(false)` with the comment "Changed from
c.config.CleanSession to false", so the configured clean-session value is
ignored; credentials are set only when the configured username is non-empty,
otherwise the paho defaults (empty strings) remain. -/
def connectOptions (cfg : MQTTConfig) : ClientOptions :=
  let base : ClientOptions :=
    { brokers := [cfg.broker]
      clientID := cfg.clientID
      keepAliveSeconds := cfg.keepAlive
      connectTimeoutSeconds := cfg.connectTimeout
      cleanSession := false
      autoReconnect := cfg.autoReconnect
      maxReconnectIntervalMinutes := 1
      connectRetry := true
      connectRetryIntervalSeconds := 5
      orderMatters := false
      resumeSubs := true
      username := ""
      password := "" }
  if cfg.username ≠ "" then
    { base with username := cfg.username, password := cfg.password }
  else base

/-- State of the `Client` struct (client.go lines 22-26): the paho client
abstracted by its observable connection state (`c.client != nil &&
c.client.IsConnected()`), the configuration, and the handler map. -/
structure Client (α : Type) where
  connected : Bool
  config : MQTTConfig
  handlers : Registry α

/-- Result of `token.Wait(); token.Error()` on a paho token. -/
inductive TokenResult where
  | ok
  | err (msg : String)
deriving DecidableEq

/-- Outcome of one `Client.Publish` call: the client state afterwards, the
returned error if any, and the number of transport publish attempts made
(the source has no queue or buffer, so unsent payloads have nowhere to go). -/
structure PublishOutcome (α : Type) where
  client : Client α
  error : Option String
  attempts : Nat

/-- Embedding of `Client.Publish` (client.go lines 148-160): when not
connected it fails immediately; otherwise it performs exactly one transport
publish at `c.config.QoS` and waits on the token, whose answer is the `tok`
parameter.  The payload is opaque to the function. -/
def Publish {α : Type} (c : Client α) (topic : String) (payload : String)
    (tok : TokenResult) : PublishOutcome α :=
  if c.connected = false then
    { client := c, error := some "MQTT client is not connected", attempts := 0 }
  else
    match tok with
    | TokenResult.ok => { client := c, error := none, attempts := 1 }
    | TokenResult.err m =>
      { client := c
        error := some ("failed to publish to topic " ++ topic ++ ": " ++ m)
        attempts := 1 }

/-- Embedding of `Client.Disconnect` (client.go lines 76-81): only when the
paho client exists and reports connected does it request a graceful close
with the 250 ms drain window, after which the transport reports
disconnected; otherwise it does nothing.  The Go function returns no value,
so no error can be produced on any path. -/
def Disconnect {α : Type} (c : Client α) : Client α :=
  if c.connected = true then { c with connected := false } else c

/-- Outcome of one `Client.Subscribe` call. -/
structure SubscribeOutcome (α : Type) where
  client : Client α
  error : Option String

/-- Embedding of `Client.Subscribe` (client.go lines 84-127): after the
bounded connection-wait loop (whose net effect is captured by the `connected`
field when the function proceeds), a still unconnected client yields an
error with the registry untouched; otherwise the handler is stored in
`c.handlers` before the transport subscribe is attempted, and a transport
error is returned without rolling the store back. -/
def Subscribe {α : Type} (c : Client α) (topic : String) (handler : α)
    (tok : TokenResult) : SubscribeOutcome α :=
  if c.connected = false then
    { client := c, error := some "MQTT client is not connected after waiting" }
  else
    let stored : Client α := { c with handlers := registryStore c.handlers topic handler }
    match tok with
    | TokenResult.err m =>
      { client := stored
        error := some ("failed to subscribe to topic " ++ topic ++ ": " ++ m) }
    | TokenResult.ok => { client := stored, error := none }

/-- Primitive actions on the shared handler map and on a lock, used to record
what each registry operation in client.go performs on shared state. -/
inductive RegistryAction where
  | lockAcquire
  | lockRelease
  | mapRead
  | mapWrite
  | mapDelete
  | mapIterate
deriving DecidableEq

/-- Shared-map actions of Subscribe: the single `c.handlers[topic] = handler`
write (client.go line 102).  No lock operation appears in the source. -/
def subscribeRegistryActions : List RegistryAction := [RegistryAction.mapWrite]

/-- Shared-map actions of Unsubscribe: `delete(c.handlers, topic)`
(client.go line 141).  No lock operation appears in the source. -/
def unsubscribeRegistryActions : List RegistryAction := [RegistryAction.mapDelete]

/-- Shared-map actions of the message-delivery callback (client.go lines
105-119): the exact lookup `c.handlers[msg.Topic()]` then the
`for pattern, handler := range c.handlers` wildcard scan.  No lock operation
appears in the source. -/
def dispatchRegistryActions : List RegistryAction :=
  [RegistryAction.mapRead, RegistryAction.mapIterate]

/-- Field names of the Client struct (client.go lines 22-26); the struct
holds no mutex or other synchronization primitive. -/
def clientStructFields : List String := ["client", "config", "handlers"]

/-- Checks, given the current lock-hold depth, that every map action in the
trace happens while the lock is held. -/
def lockProtectedFrom : Nat → List RegistryAction → Bool
  | _, [] => true
  | d, RegistryAction.lockAcquire :: rest => lockProtectedFrom (d + 1) rest
  | d, RegistryAction.lockRelease :: rest => lockProtectedFrom (d - 1) rest
  | 0, _ :: _ => false
  | d + 1, _ :: rest => lockProtectedFrom (d + 1) rest

/-- An action trace is lock-protected when every one of its map accesses
happens while the lock is held. -/
def lockProtected (l : List RegistryAction) : Bool := lockProtectedFrom 0 l

/-- Statement of the mutual-exclusion claim over the recorded traces: each
registry operation keeps all of its shared-map accesses under the lock. -/
def registrySerialized : Prop :=
  lockProtected subscribeRegistryActions = true ∧
  lockProtected unsubscribeRegistryActions = true ∧
  lockProtected dispatchRegistryActions = true

/-- Parsed RFC 3339 timestamp: calendar fields plus UTC offset in minutes. -/
structure Rfc3339Time where
  year : Nat
  month : Nat
  day : Nat
  hour : Nat
  minute : Nat
  second : Nat
  offsetMinutes : Int
deriving DecidableEq

/-- Numeric value of a decimal digit character, or `none`. -/
def digitVal (c : Char) : Option Nat :=
  if c.isDigit then some (c.toNat - 48) else none

/-- Two-digit decimal number from two characters. -/
def num2 (a b : Char) : Option Nat := do
  let x ← digitVal a
  let y ← digitVal b
  pure (10 * x + y)

/-- Four-digit decimal number from four characters. -/
def num4 (a b c d : Char) : Option Nat := do
  let x ← num2 a b
  let y ← num2 c d
  pure (100 * x + y)

/-- Range checks of the calendar fields, as `time.Parse` rejects
out-of-range months, days, hours, minutes and seconds. -/
def mkRfc3339 (y mo d h mi s : Nat) (off : Int) : Option Rfc3339Time :=
  if 1 ≤ mo ∧ mo ≤ 12 ∧ 1 ≤ d ∧ d ≤ 31 ∧ h ≤ 23 ∧ mi ≤ 59 ∧ s ≤ 59 then
    some { year := y, month := mo, day := d, hour := h, minute := mi, second := s,
           offsetMinutes := off }
  else none

/-- Model of Go `time.Parse(time.RFC3339, s)` on the fraction-free subset this
system produces and consumes (`time.Now().Format(time.RFC3339)` and device
timestamps): `YYYY-MM-DDTHH:MM:SS` followed by `Z` or a `+HH:MM`/`-HH:MM`
offset.  Any other shape, non-digit, or out-of-range field is a parse error
(`none`). -/
def parseRFC3339 (s : String) : Option Rfc3339Time :=
  match s.toList with
  | [y1, y2, y3, y4, '-', m1, m2, '-', d1, d2, 'T',
     h1, h2, ':', n1, n2, ':', s1, s2, 'Z'] => do
    let y ← num4 y1 y2 y3 y4
    let mo ← num2 m1 m2
    let d ← num2 d1 d2
    let h ← num2 h1 h2
    let mi ← num2 n1 n2
    let sec ← num2 s1 s2
    mkRfc3339 y mo d h mi sec 0
  | [y1, y2, y3, y4, '-', m1, m2, '-', d1, d2, 'T',
     h1, h2, ':', n1, n2, ':', s1, s2, sign, o1, o2, ':', o3, o4] => do
    let y ← num4 y1 y2 y3 y4
    let mo ← num2 m1 m2
    let d ← num2 d1 d2
    let h ← num2 h1 h2
    let mi ← num2 n1 n2
    let sec ← num2 s1 s2
    let oh ← num2 o1 o2
    let om ← num2 o3 o4
    if (sign = '+' ∨ sign = '-') ∧ oh ≤ 23 ∧ om ≤ 59 then
      let off : Int := (oh * 60 + om : Nat)
      mkRfc3339 y mo d h mi sec (if sign = '+' then off else -off)
    else none
  | _ => none

/-- JSON shape of a device data message (`DeviceDataMessage` in
cmd/server/main.go); `V` abstracts the values of the `data` and `metadata`
JSON objects.  Absent JSON string fields decode to `""`, as with
`json.Unmarshal` into a Go string field. -/
structure DeviceDataMessage (V : Type) where
  deviceID : String
  timestamp : String
  data : List (String × V)
  metadata : List (String × V)
deriving DecidableEq

/-- JSON shape of a device status message (`DeviceStatusMessage` in
cmd/server/main.go). -/
structure DeviceStatusMessage (V : Type) where
  deviceID : String
  status : String
  lastSeen : String
  metadata : List (String × V)
deriving DecidableEq

/-- Inbound payload paired with its `json.Unmarshal` outcome into
`DeviceDataMessage`: either malformed JSON or a decoded message, in both
cases keeping the raw bytes the handler logs. -/
inductive DataPayload (V : Type) where
  | malformed (raw : String)
  | wellFormed (raw : String) (msg : DeviceDataMessage V)
deriving DecidableEq

/-- Raw bytes of the payload, as `string(payload)` in the handler's logs. -/
def DataPayload.raw {V : Type} : DataPayload V → String
  | DataPayload.malformed r => r
  | DataPayload.wellFormed r _ => r

/-- Outcome of `json.Unmarshal(payload, &deviceData)` on the represented
payload. -/
def DataPayload.unmarshal {V : Type} : DataPayload V → Option (DeviceDataMessage V)
  | DataPayload.malformed _ => none
  | DataPayload.wellFormed _ m => some m

/-- Inbound payload paired with its `json.Unmarshal` outcome into
`DeviceStatusMessage`. -/
inductive StatusPayload (V : Type) where
  | malformed (raw : String)
  | wellFormed (raw : String) (msg : DeviceStatusMessage V)
deriving DecidableEq

/-- Raw bytes of the status payload. -/
def StatusPayload.raw {V : Type} : StatusPayload V → String
  | StatusPayload.malformed r => r
  | StatusPayload.wellFormed r _ => r

/-- Outcome of `json.Unmarshal(payload, &deviceStatus)` on the represented
payload. -/
def StatusPayload.unmarshal {V : Type} : StatusPayload V → Option (DeviceStatusMessage V)
  | StatusPayload.malformed _ => none
  | StatusPayload.wellFormed _ m => some m

/-- Log lines the handlers emit, recorded by content rather than by formatted
text. -/
inductive LogEvent where
  | receivedData (topic : String) (raw : String)
  | receivedStatus (topic : String) (raw : String)
  | parseJsonFailed (raw : String)
  | missingField (field : String)
  | parseTimestampFailed (value : String)
  | processedData (deviceID : String) (points : Nat)
  | processedStatus (deviceID : String) (status : String)
deriving DecidableEq

/-- Final disposition of one data-handler invocation. -/
inductive DataOutcome (T : Type) where
  | droppedJsonError
  | droppedMissingDeviceID
  | droppedMissingTimestamp
  | droppedTimestampError
  | processed (deviceID : String) (timestamp : T) (points : Nat)
deriving DecidableEq

/-- Final disposition of one status-handler invocation. -/
inductive StatusOutcome (T : Type) where
  | droppedJsonError
  | droppedMissingDeviceID
  | droppedMissingStatus
  | processed (deviceID : String) (status : String) (lastSeen : T)
deriving DecidableEq

/-- Record of one handler invocation: the log lines and the final outcome.
Handlers in the source return nothing and touch no shared state; their only
effects are these logs and the processed values. -/
structure HandlerRun (O : Type) where
  logs : List LogEvent
  outcome : O
deriving DecidableEq

/-- Embedding of `Application.handleDeviceData` (cmd/server/main.go lines
219-258): log receipt, parse JSON (log and drop on error), require
`device_id` and `timestamp` to be non-empty (drop otherwise), parse the
timestamp with `time.Parse(time.RFC3339, ...)` and drop the message when that
fails, else process.  `parseTime` abstracts the timestamp parser
(`parseRFC3339` in concrete instantiations). -/
def handleDeviceData {V T : Type} (parseTime : String → Option T) (topic : String)
    (p : DataPayload V) : HandlerRun (DataOutcome T) :=
  let recv : List LogEvent := [LogEvent.receivedData topic p.raw]
  match p.unmarshal with
  | none =>
    { logs := recv ++ [LogEvent.parseJsonFailed p.raw]
      outcome := DataOutcome.droppedJsonError }
  | some m =>
    if m.deviceID = "" then
      { logs := recv ++ [LogEvent.missingField "device_id"]
        outcome := DataOutcome.droppedMissingDeviceID }
    else if m.timestamp = "" then
      { logs := recv ++ [LogEvent.missingField "timestamp"]
        outcome := DataOutcome.droppedMissingTimestamp }
    else
      match parseTime m.timestamp with
      | none =>
        { logs := recv ++ [LogEvent.parseTimestampFailed m.timestamp]
          outcome := DataOutcome.droppedTimestampError }
      | some ts =>
        { logs := recv ++ [LogEvent.processedData m.deviceID m.data.length]
          outcome := DataOutcome.processed m.deviceID ts m.data.length }

/-- Embedding of `Application.handleDeviceStatus` (cmd/server/main.go lines
261-307): like the data handler, but `last_seen` is optional and a present
but unparseable `last_seen` falls back to `now` (the receipt time) instead of
dropping the message. -/
def handleDeviceStatus {V T : Type} (parseTime : String → Option T) (now : T)
    (topic : String) (p : StatusPayload V) : HandlerRun (StatusOutcome T) :=
  let recv : List LogEvent := [LogEvent.receivedStatus topic p.raw]
  match p.unmarshal with
  | none =>
    { logs := recv ++ [LogEvent.parseJsonFailed p.raw]
      outcome := StatusOutcome.droppedJsonError }
  | some m =>
    if m.deviceID = "" then
      { logs := recv ++ [LogEvent.missingField "device_id"]
        outcome := StatusOutcome.droppedMissingDeviceID }
    else if m.status = "" then
      { logs := recv ++ [LogEvent.missingField "status"]
        outcome := StatusOutcome.droppedMissingStatus }
    else
      if m.lastSeen = "" then
        { logs := recv ++ [LogEvent.processedStatus m.deviceID m.status]
          outcome := StatusOutcome.processed m.deviceID m.status now }
      else
        match parseTime m.lastSeen with
        | none =>
          { logs := recv ++ [LogEvent.parseTimestampFailed m.lastSeen,
              LogEvent.processedStatus m.deviceID m.status]
            outcome := StatusOutcome.processed m.deviceID m.status now }
        | some t =>
          { logs := recv ++ [LogEvent.processedStatus m.deviceID m.status]
            outcome := StatusOutcome.processed m.deviceID m.status t }

/-- Dispatch loop as the data handler sees it: each inbound `(topic, payload)`
pair is handled by one isolated, pure invocation, so no message's outcome
depends on the messages before it. -/
def processDataMessages {V T : Type} (parseTime : String → Option T)
    (msgs : List (String × DataPayload V)) : List (DataOutcome T) :=
  msgs.map (fun m => (handleDeviceData parseTime m.1 m.2).outcome)

/-- Configuration used by the concrete test instances, mirroring the fixture
of client_test.go (CleanSession is configured true there). -/
def testConfig : MQTTConfig :=
  { broker := "tcp://localhost:1883"
    clientID := "test-client"
    username := ""
    password := ""
    keepAlive := 60
    connectTimeout := 30
    qos := 1
    cleanSession := true
    autoReconnect := true }

/-- Concrete client whose transport reports disconnected. -/
def disconnectedClient : Client Nat :=
  { connected := false, config := testConfig, handlers := [] }

/-- Concrete client whose transport reports connected. -/
def connectedClient : Client Nat :=
  { connected := true, config := testConfig, handlers := [] }

/-- Concrete device-data message whose timestamp field is present but not
RFC 3339. -/
def dataMsgBadTs : DeviceDataMessage Int :=
  { deviceID := "dev-1"
    timestamp := "not-a-timestamp"
    data := [("temperature", 25)]
    metadata := [] }

/-- Concrete payload carrying `dataMsgBadTs`. -/
def dataPayloadBadTs : DataPayload Int :=
  DataPayload.wellFormed
    "\x7b \"device_id\": \"dev-1\", \"timestamp\": \"not-a-timestamp\" \x7d"
    dataMsgBadTs

/-- Concrete receipt time standing for `time.Now()` at dispatch. -/
def receiptTime : Rfc3339Time :=
  { year := 2024, month := 1, day := 15, hour := 12, minute := 0, second := 0,
    offsetMinutes := 0 }

/-- Concrete device-status message whose `last_seen` is present but not
RFC 3339. -/
def statusMsgBadTs : DeviceStatusMessage Int :=
  { deviceID := "dev-1"
    status := "online"
    lastSeen := "bad-time"
    metadata := [] }

/-- Concrete well-formed device-data message. -/
def dataMsgGood : DeviceDataMessage Int :=
  { deviceID := "dev-1"
    timestamp := "2024-01-15T10:30:00Z"
    data := [("temperature", 25)]
    metadata := [] }

/-- Value `parseRFC3339` yields on `dataMsgGood`'s timestamp. -/
def parsedGoodTs : Rfc3339Time :=
  { year := 2024, month := 1, day := 15, hour := 10, minute := 30, second := 0,
    offsetMinutes := 0 }

/-- Characterization of `matchParts` on lists where the pattern is no longer
than the topic: it succeeds exactly when every pattern position is `+` or
equals the topic segment at the same position. -/
theorem matchParts_eq_true_iff :
    ∀ (pp tp : List String), pp.length ≤ tp.length →
      (matchParts pp tp = true ↔
        ∀ i, i < pp.length → (pp.getD i "" = "+" ∨ pp.getD i "" = tp.getD i "")) := by
  intro pp
  induction pp with
  | nil =>
    intro tp _
    simp [matchParts]
  | cons p ps ih =>
    intro tp hlen
    cases tp with
    | nil => simp at hlen
    | cons t ts =>
      have hlen' : ps.length ≤ ts.length := by simpa using hlen
      constructor
      · intro hm i hi
        have hsplit : (p = "+" ∨ p = t) ∧ matchParts ps ts = true := by
          by_cases hc : p = "+" ∨ p = t
          · exact ⟨hc, by simpa [matchParts, hc] using hm⟩
          · simp [matchParts, hc] at hm
        cases i with
        | zero => simpa using hsplit.1
        | succ j =>
          have hj : j < ps.length := by simpa using hi
          simpa using ((ih ts hlen').mp hsplit.2) j hj
      · intro h
        have h0 : p = "+" ∨ p = t := by simpa using h 0 (by simp)
        have hrest : matchParts ps ts = true := by
          refine (ih ts hlen').mpr ?_
          intro j hj
          simpa using h (j + 1) (by simpa using hj)
        simp [matchParts, h0, hrest]

/-- Reading a position of `dropLast` inside bounds reads the original list. -/
theorem getD_dropLast (l : List String) (i : Nat) (hi : i < l.dropLast.length) :
    l.dropLast.getD i "" = l.getD i "" := by
  have hi' : i < l.length := lt_of_lt_of_le hi (by rw [List.length_dropLast]; omega)
  rw [List.getD_eq_getElem _ _ hi, List.getD_eq_getElem _ _ hi']
  exact List.getElem_dropLast l i hi

/-- C1: for every pattern whose last `/`-separated segment is not `#` and
every topic, `topicMatches` returns true iff pattern and topic have the same
number of `/`-separated segments and each pattern segment is `+` or equals
the topic segment at the same position; in particular a topic with more
segments than the pattern never matches. -/
theorem topicMatches_no_hash_iff (pattern topic : String)
    (h : (segments pattern).getLastD "" ≠ "#") :
    (topicMatches pattern topic = true ↔
      ((segments pattern).length = (segments topic).length ∧
        ∀ i, i < (segments pattern).length →
          ((segments pattern).getD i "" = "+" ∨
            (segments pattern).getD i "" = (segments topic).getD i ""))) ∧
    ((segments pattern).length < (segments topic).length →
      topicMatches pattern topic = false) := by
  have hcond : ¬(0 < (segments pattern).length ∧ (segments pattern).getLastD "" = "#") :=
    fun hc => h hc.2
  rw [topicMatches, if_neg hcond]
  by_cases hl : (segments pattern).length = (segments topic).length
  · rw [if_pos hl]
    refine ⟨matchParts_eq_true_iff _ _ hl.le |>.trans ?_, ?_⟩
    · constructor
      · intro hall; exact ⟨hl, hall⟩
      · intro hall; exact hall.2
    · intro hgt; omega
  · rw [if_neg hl]
    constructor
    · constructor
      · intro hfalse; cases hfalse
      · intro hall; exact absurd hall.1 hl
    · intro _; rfl

/-- Witness for C1 at the spec's example: `devices/+/data` does not end in
`#` and matches `devices/dev-1/data`. -/
theorem topicMatches_no_hash_iff_witness :
    (segments "devices/+/data").getLastD "" ≠ "#" ∧
    topicMatches "devices/+/data" "devices/dev-1/data" = true :=
  ⟨by decide,
    ((topicMatches_no_hash_iff "devices/+/data" "devices/dev-1/data" (by decide)).1).mpr
      (by decide)⟩

/-- C2: for every pattern whose last `/`-separated segment is `#` and every
topic, `topicMatches` returns true iff the topic's segment count is at least
the pattern's segment count minus one and every pattern segment before the
`#` is `+` or equals the topic segment at the same position — so zero extra
topic segments still match and extra topic segments are accepted
unconditionally. -/
theorem topicMatches_hash_iff (pattern topic : String)
    (h : (segments pattern).getLastD "" = "#") :
    topicMatches pattern topic = true ↔
      ((segments pattern).length - 1 ≤ (segments topic).length ∧
        ∀ i, i < (segments pattern).length - 1 →
          ((segments pattern).getD i "" = "+" ∨
            (segments pattern).getD i "" = (segments topic).getD i "")) := by
  have hne : segments pattern ≠ [] := by
    intro h0
    rw [h0] at h
    simp [List.getLastD] at h
  have hpos : 0 < (segments pattern).length := List.length_pos.mpr hne
  rw [topicMatches, if_pos ⟨hpos, h⟩]
  have hlen : ((segments pattern).dropLast).length = (segments pattern).length - 1 :=
    List.length_dropLast _
  by_cases hl : ((segments pattern).dropLast).length ≤ (segments topic).length
  · rw [if_pos hl, matchParts_eq_true_iff _ _ hl]
    constructor
    · intro hall
      refine ⟨by omega, ?_⟩
      intro i hi
      have hi' : i < ((segments pattern).dropLast).length := by omega
      have := hall i hi'
      rwa [getD_dropLast _ _ hi'] at this
    · intro hall i hi
      have hi' : i < (segments pattern).length - 1 := by omega
      rw [getD_dropLast _ _ hi]
      exact hall.2 i hi'
  · rw [if_neg hl]
    constructor
    · intro hfalse; cases hfalse
    · intro hall
      exact absurd (by omega : ((segments pattern).dropLast).length ≤ (segments topic).length) hl

/-- Witness for C2 at the spec's boundary example: `devices/#` matches the
topic `devices`, which has zero extra segments beyond the prefix. -/
theorem topicMatches_hash_iff_witness :
    (segments "devices/#").getLastD "" = "#" ∧
    topicMatches "devices/#" "devices" = true :=
  ⟨by decide,
    (topicMatches_hash_iff "devices/#" "devices" (by decide)).mpr (by decide)⟩

/-- C3: dispatch resolves an exact registry entry for the concrete topic
before any wildcard scan — whenever the registry holds a binding whose
pattern equals the topic, that handler and no other is returned, and
registering both the exact pattern and a wildcard pattern (in either order)
always resolves the topic to the exact pattern's handler. -/
theorem exact_match_wins {α : Type} (r : Registry α) (topic wild : String)
    (he hw : α) (hne : wild ≠ topic) :
    (∀ (r' : Registry α) (h : α), r'.lookup topic = some h →
      resolveHandler r' topic = some h) ∧
    resolveHandler (registryStore (registryStore r wild hw) topic he) topic = some he ∧
    resolveHandler (registryStore (registryStore r topic he) wild hw) topic = some he := by
  have hbeq : (topic == wild) = false := beq_eq_false_iff_ne.mpr (fun hh => hne hh.symm)
  refine ⟨?_, ?_, ?_⟩
  · intro r' h hex
    simp [resolveHandler, hex]
  · simp [resolveHandler, registryStore, List.lookup]
  · simp [resolveHandler, registryStore, List.lookup, hbeq]

/-- Witness for C3: registering `devices/+/data` (handler 2) then
`devices/dev-1/data` (handler 1) resolves the concrete topic to handler 1. -/
theorem exact_match_wins_witness :
    ("devices/+/data" : String) ≠ "devices/dev-1/data" ∧
    resolveHandler
      (registryStore (registryStore ([] : Registry Nat) "devices/+/data" 2)
        "devices/dev-1/data" 1) "devices/dev-1/data" = some 1 :=
  ⟨by decide,
    (exact_match_wins ([] : Registry Nat) "devices/dev-1/data" "devices/+/data" 1 2
      (by decide)).2.1⟩

/-- C4 counterexample: the data handler, given a payload whose timestamp
field is present but not parseable as RFC 3339, drops the message instead of
processing it with the current time — refuting the claim that every
JSON-parsing handler falls back to "now". -/
theorem data_handler_drops_unparseable_timestamp :
    parseRFC3339 "not-a-timestamp" = none ∧
    (handleDeviceData parseRFC3339 "devices/dev-1/data" dataPayloadBadTs).outcome
      = DataOutcome.droppedTimestampError := by
  constructor
  · decide
  · decide

/-- C4 amended: only the status handler falls back to "now" — for every
status message whose `last_seen` is present but unparseable it processes the
message with `now` as the timestamp, while the data handler drops a message
whose required `timestamp` is present but unparseable. -/
theorem timestamp_fallback_split {V T : Type} (pt : String → Option T) (now : T)
    (topicS topicD rawS rawD : String) (ms : DeviceStatusMessage V)
    (md : DeviceDataMessage V)
    (hs1 : ms.deviceID ≠ "") (hs2 : ms.status ≠ "") (hs3 : ms.lastSeen ≠ "")
    (hs4 : pt ms.lastSeen = none)
    (hd1 : md.deviceID ≠ "") (hd2 : md.timestamp ≠ "") (hd3 : pt md.timestamp = none) :
    (handleDeviceStatus pt now topicS (StatusPayload.wellFormed rawS ms)).outcome
      = StatusOutcome.processed ms.deviceID ms.status now ∧
    (handleDeviceData pt topicD (DataPayload.wellFormed rawD md)).outcome
      = DataOutcome.droppedTimestampError := by
  constructor
  · simp [handleDeviceStatus, StatusPayload.unmarshal, hs1, hs2, hs3, hs4]
  · simp [handleDeviceData, DataPayload.unmarshal, hd1, hd2, hd3]

/-- Witness for the amended C4 at concrete messages: the status handler
processes with the receipt time, the data handler drops. -/
theorem timestamp_fallback_split_witness :
    parseRFC3339 "bad-time" = none ∧
    parseRFC3339 "not-a-timestamp" = none ∧
    (handleDeviceStatus parseRFC3339 receiptTime "devices/dev-1/status"
        (StatusPayload.wellFormed "raw-status" statusMsgBadTs)).outcome
      = StatusOutcome.processed "dev-1" "online" receiptTime ∧
    (handleDeviceData parseRFC3339 "devices/dev-1/data"
        (DataPayload.wellFormed "raw-data" dataMsgBadTs)).outcome
      = DataOutcome.droppedTimestampError :=
  ⟨by decide, by decide,
    (timestamp_fallback_split parseRFC3339 receiptTime "devices/dev-1/status"
      "devices/dev-1/data" "raw-status" "raw-data" statusMsgBadTs dataMsgBadTs
      (by decide) (by decide) (by decide) (by decide)
      (by decide) (by decide) (by decide)).1,
    (timestamp_fallback_split parseRFC3339 receiptTime "devices/dev-1/status"
      "devices/dev-1/data" "raw-status" "raw-data" statusMsgBadTs dataMsgBadTs
      (by decide) (by decide) (by decide) (by decide)
      (by decide) (by decide) (by decide)).2⟩

/-- C5 counterexample: with the test fixture's configuration, whose
clean-session flag is true, the options `Connect` builds carry clean-session
false — the configured value is not reflected. -/
theorem cleanSession_not_from_config :
    testConfig.cleanSession = true ∧
    (connectOptions testConfig).cleanSession = false :=
  ⟨rfl, rfl⟩

/-- C5 amended: `connect()` builds the session options from the
configuration's broker address, client identity, keep-alive interval,
connect timeout, optional credentials and auto-reconnect flag, but always
passes clean-session false (a durable session), ignoring the configured
clean-session value. -/
theorem connectOptions_fields (cfg : MQTTConfig) :
    (connectOptions cfg).cleanSession = false ∧
    (connectOptions cfg).brokers = [cfg.broker] ∧
    (connectOptions cfg).clientID = cfg.clientID ∧
    (connectOptions cfg).keepAliveSeconds = cfg.keepAlive ∧
    (connectOptions cfg).connectTimeoutSeconds = cfg.connectTimeout ∧
    (connectOptions cfg).autoReconnect = cfg.autoReconnect ∧
    (connectOptions cfg).username = (if cfg.username ≠ "" then cfg.username else "") ∧
    (connectOptions cfg).password = (if cfg.username ≠ "" then cfg.password else "") := by
  by_cases h : cfg.username ≠ "" <;> simp [connectOptions, h]

/-- C6: a payload that is not valid JSON is logged (topic and raw payload)
and dropped by the telemetry handler, which returns normally — the handler
is a total function with no shared state — and a subsequent well-formed
message on the same topic is processed normally by the dispatch loop. -/
theorem malformed_json_isolated {V T : Type} (pt : String → Option T)
    (topic raw raw2 : String) (md : DeviceDataMessage V) (ts : T)
    (h1 : md.deviceID ≠ "") (h2 : md.timestamp ≠ "") (h3 : pt md.timestamp = some ts) :
    (handleDeviceData pt topic (DataPayload.malformed raw : DataPayload V)).outcome
      = DataOutcome.droppedJsonError ∧
    LogEvent.receivedData topic raw
      ∈ (handleDeviceData pt topic (DataPayload.malformed raw : DataPayload V)).logs ∧
    LogEvent.parseJsonFailed raw
      ∈ (handleDeviceData pt topic (DataPayload.malformed raw : DataPayload V)).logs ∧
    processDataMessages pt [(topic, DataPayload.malformed raw),
        (topic, DataPayload.wellFormed raw2 md)] =
      [DataOutcome.droppedJsonError,
        DataOutcome.processed md.deviceID ts md.data.length] := by
  refine ⟨rfl, ?_, ?_, ?_⟩
  · simp [handleDeviceData, DataPayload.unmarshal, DataPayload.raw]
  · simp [handleDeviceData, DataPayload.unmarshal, DataPayload.raw]
  · simp [processDataMessages, handleDeviceData, DataPayload.unmarshal, h1, h2, h3]

/-- Witness for C6: a malformed payload followed by a well-formed one on the
same topic yields a drop and then a normal processing. -/
theorem malformed_json_isolated_witness :
    parseRFC3339 "2024-01-15T10:30:00Z" = some parsedGoodTs ∧
    processDataMessages parseRFC3339
      [("devices/dev-1/data", DataPayload.malformed "\x7bnot-json"),
        ("devices/dev-1/data", DataPayload.wellFormed "raw-good" dataMsgGood)] =
      [DataOutcome.droppedJsonError,
        DataOutcome.processed "dev-1" parsedGoodTs 1] :=
  ⟨by decide,
    (malformed_json_isolated parseRFC3339 "devices/dev-1/data" "\x7bnot-json"
      "raw-good" dataMsgGood parsedGoodTs (by decide) (by decide) (by decide)).2.2.2⟩

/-- C7: publishing while the connection state is not connected returns an
error immediately, makes zero transport attempts, leaves the client state
(including the absence of any buffered message) unchanged, and on every path
a publish call makes at most one transport attempt. -/
theorem publish_disconnected_errors {α : Type} (c : Client α)
    (topic payload : String) (tok : TokenResult) (h : c.connected = false) :
    (Publish c topic payload tok).error.isSome = true ∧
    (Publish c topic payload tok).attempts = 0 ∧
    (Publish c topic payload tok).client = c ∧
    (∀ (c' : Client α) (tok' : TokenResult),
      (Publish c' topic payload tok').attempts ≤ 1) := by
  refine ⟨?_, ?_, ?_, ?_⟩
  · simp [Publish, h]
  · simp [Publish, h]
  · simp [Publish, h]
  · intro c' tok'
    by_cases h' : c'.connected = false
    · simp [Publish, h']
    · cases tok' <;> simp [Publish, h']

/-- Witness for C7 on the concrete disconnected client. -/
theorem publish_disconnected_errors_witness :
    disconnectedClient.connected = false ∧
    (Publish disconnectedClient "devices/dev-1/data" "x" TokenResult.ok).error.isSome
      = true ∧
    (Publish disconnectedClient "devices/dev-1/data" "x" TokenResult.ok).attempts = 0 :=
  ⟨rfl,
    (publish_disconnected_errors disconnectedClient "devices/dev-1/data" "x"
      TokenResult.ok rfl).1,
    (publish_disconnected_errors disconnectedClient "devices/dev-1/data" "x"
      TokenResult.ok rfl).2.1⟩

/-- C9: disconnect is idempotent — after any call the state is disconnected,
a second call changes nothing, and calling it on an already disconnected
client changes nothing; the Go function returns no value, so no error can be
produced on any path. -/
theorem disconnect_idempotent {α : Type} (c : Client α) :
    (Disconnect c).connected = false ∧
    Disconnect (Disconnect c) = Disconnect c ∧
    Disconnect { c with connected := false } = { c with connected := false } := by
  have hfix : ∀ (d : Client α), d.connected = false → Disconnect d = d := by
    intro d hd
    simp [Disconnect, hd]
  have h1 : (Disconnect c).connected = false := by
    by_cases h : c.connected = true
    · simp [Disconnect, h]
    · simp only [Disconnect, if_neg h]
      simpa using h
  exact ⟨h1, hfix _ h1, hfix _ rfl⟩

/-- C10: Subscribe stores the handler in the registry before the transport
subscription, so a transport error leaves the handler registered (no
rollback), while a connection-wait timeout fails with the whole client state,
registry included, unchanged. -/
theorem subscribe_stores_before_transport {α : Type} (c : Client α)
    (topic : String) (handler : α) (m : String) (hc : c.connected = true) :
    ((Subscribe c topic handler (TokenResult.err m)).error.isSome = true ∧
      (Subscribe c topic handler (TokenResult.err m)).client.handlers.lookup topic
        = some handler) ∧
    (∀ (d : Client α) (tok : TokenResult), d.connected = false →
      (Subscribe d topic handler tok).client = d ∧
      (Subscribe d topic handler tok).error.isSome = true) := by
  refine ⟨⟨?_, ?_⟩, ?_⟩
  · simp [Subscribe, hc]
  · simp [Subscribe, hc, registryStore, List.lookup]
  · intro d tok hd
    constructor <;> simp [Subscribe, hd]

/-- Witness for C10 on the concrete connected client with a failing
transport subscription. -/
theorem subscribe_stores_before_transport_witness :
    connectedClient.connected = true ∧
    (Subscribe connectedClient "devices/+/data" 7 (TokenResult.err "boom")).error.isSome
      = true ∧
    (Subscribe connectedClient "devices/+/data" 7
      (TokenResult.err "boom")).client.handlers.lookup "devices/+/data" = some 7 :=
  ⟨rfl,
    (subscribe_stores_before_transport connectedClient "devices/+/data" 7 "boom"
      rfl).1.1,
    (subscribe_stores_before_transport connectedClient "devices/+/data" 7 "boom"
      rfl).1.2⟩

/-- C8: the registry operations of client.go are NOT mutually exclusive —
none of the shared-map accesses of Subscribe, Unsubscribe or the delivery
callback is performed under any lock (the Client struct has no mutex field),
so the mutual-exclusion property the claim asserts fails on the code. -/
theorem registry_not_serialized :
    ¬registrySerialized ∧
    (clientStructFields.any (fun f => f = "mu" ∨ f = "mutex" ∨ f = "lock")) = false := by
  constructor
  · intro h
    exact absurd h.1 (by decide)
  · decide

end IotPlatform
